import Mathlib

/-!
A shallow embedding of the sketch-to-image backend
(`src/backend/model_handler.py` and `src/backend/app.py`).

The two module-level globals `pipeline` and `preprocessor` become a state
record that every operation threads explicitly.  External collaborator
calls (the two `from_pretrained` constructors, the device move, the HED
detector, the diffusion pipeline invocation, file opening and base64
encoding) are supplied by an environment record, so that both the success
and the failure behaviour of each call site can be examined.  Handles are
numeric identities: two handles are "reference-identical" exactly when
the numbers are equal, since the environment decides which identity each
construction event yields.
-/

namespace SketchToImage

/-- PIL resampling filters, as far as the code uses them
(`Image.Resampling.LANCZOS` at `model_handler.py:105`). -/
inductive Resampling where
  | nearest
  | bilinear
  | bicubic
  | lanczos
deriving DecidableEq, Repr

/-- A PIL image as the code observes it: dimensions, colour mode
(for example "RGB", "RGBA", "L"), and — for stating facts about the
preprocessing chain — the filter of the last resampling applied to it
(`none` for an image that was never resampled). -/
structure PilImage where
  width : Nat
  height : Nat
  mode : String
  resampledWith : Option Resampling
deriving DecidableEq, Repr

/-- `image.convert("RGB")` at `model_handler.py:102`: same geometry,
three-channel colour mode. -/
def PilImage.convertRGB (i : PilImage) : PilImage :=
  { i with mode := "RGB" }

/-- `image.resize((w, h), filter)` at `model_handler.py:105`: new
dimensions, mode kept, resampling filter recorded. -/
def PilImage.resizeWith (i : PilImage) (w h : Nat) (f : Resampling) : PilImage :=
  { width := w, height := h, mode := i.mode, resampledWith := some f }

/-- The conditioning image produced by the HED detector call
`preprocessor(image, scribble=True)` at `model_handler.py:109`.
It records which detector handle ran, the exact image it was fed,
and the scribble flag. -/
structure ControlImage where
  detector : Nat
  src : PilImage
  scribble : Bool
deriving DecidableEq, Repr

/-- The module-level globals of `model_handler.py` (lines 15-16):
`pipeline = None` and `preprocessor = None`. -/
structure ModelState where
  pipeline : Option Nat
  preprocessor : Option Nat
deriving DecidableEq, Repr

/-- The state at interpreter start: both globals are `None`. -/
def initialState : ModelState := { pipeline := none, preprocessor := none }

/-- One invocation of the diffusion pipeline
(`model_handler.py:151-158`), with every keyword argument the code
passes. The guidance and conditioning scales are exact rationals since
the code only ever passes them through unchanged. -/
structure PipelineCall where
  prompt : String
  negative_prompt : String
  image : ControlImage
  num_inference_steps : Nat
  guidance_scale : Rat
  controlnet_conditioning_scale : Rat
deriving DecidableEq, Repr

/-- Outcomes of the external collaborator calls, fixed per scenario:
each constructor either yields a handle identity or raises.  `run` is
the diffusion pipeline itself, returning its `images` collection;
`openFile` is `Image.open` on a path; `encode` is the PNG/base64
transport encoding of `pil_to_base64`. -/
structure Env where
  controlnet : Except String Nat
  sdPipe : Except String Nat
  moved : Except String Nat
  hed : Except String Nat
  run : PipelineCall → Except String (List PilImage)
  openFile : String → Except String PilImage
  encode : PilImage → String

/-- Result of `load_model`: the returned-or-raised value, the state of
the globals afterwards, and how many `from_pretrained` constructions
were attempted during the call. -/
structure LoadResult where
  res : Except String Nat
  state : ModelState
  constructions : Nat
deriving Repr

/-- `load_model` (`model_handler.py:19-75`).  Returns the cached
pipeline when the global is already set (lines 31-33); otherwise
constructs ControlNet (line 49), then the pipeline — assigning the
global at line 56 —, moves it to the device — reassigning at line 64 —,
then constructs the HED preprocessor (line 68).  Any exception is
re-raised (line 75), leaving the globals as they were at the moment of
the raise. -/
def load_model (env : Env) (s : ModelState) : LoadResult :=
  match s.pipeline with
  | some p => { res := Except.ok p, state := s, constructions := 0 }
  | none =>
    match env.controlnet with
    | Except.error e => { res := Except.error e, state := s, constructions := 1 }
    | Except.ok _ =>
      match env.sdPipe with
      | Except.error e => { res := Except.error e, state := s, constructions := 2 }
      | Except.ok p1 =>
        let s1 : ModelState := { s with pipeline := some p1 }
        match env.moved with
        | Except.error e => { res := Except.error e, state := s1, constructions := 2 }
        | Except.ok p2 =>
          let s2 : ModelState := { s1 with pipeline := some p2 }
          match env.hed with
          | Except.error e => { res := Except.error e, state := s2, constructions := 3 }
          | Except.ok h =>
            { res := Except.ok p2
              state := { s2 with preprocessor := some h }
              constructions := 3 }

/-- The argument of `preprocess_sketch`: either a file-system path or a
PIL image (`model_handler.py:96-99`). -/
inductive ImageInput where
  | path (p : String)
  | img (i : PilImage)
deriving DecidableEq, Repr

/-- `preprocess_sketch` (`model_handler.py:78-111`): lazily loads the
preprocessor when the global is `None` (lines 91-93), opens the input
when given a path (lines 96-99), converts to RGB (line 102), resizes to
512x512 with LANCZOS (line 105), and runs the detector in scribble mode
(line 109).  Exceptions propagate with the globals as assigned so
far. -/
def preprocess_sketch (env : Env) (s : ModelState) (input : ImageInput) :
    Except String ControlImage × ModelState :=
  match s.preprocessor with
  | none =>
    match env.hed with
    | Except.error e => (Except.error e, s)
    | Except.ok h =>
      let s1 : ModelState := { s with preprocessor := some h }
      match input with
      | ImageInput.path p =>
        match env.openFile p with
        | Except.error e => (Except.error e, s1)
        | Except.ok i =>
          (Except.ok { detector := h
                       src := (i.convertRGB.resizeWith 512 512 Resampling.lanczos)
                       scribble := true }, s1)
      | ImageInput.img i =>
        (Except.ok { detector := h
                     src := (i.convertRGB.resizeWith 512 512 Resampling.lanczos)
                     scribble := true }, s1)
  | some h =>
    match input with
    | ImageInput.path p =>
      match env.openFile p with
      | Except.error e => (Except.error e, s)
      | Except.ok i =>
        (Except.ok { detector := h
                     src := (i.convertRGB.resizeWith 512 512 Resampling.lanczos)
                     scribble := true }, s)
    | ImageInput.img i =>
      (Except.ok { detector := h
                   src := (i.convertRGB.resizeWith 512 512 Resampling.lanczos)
                   scribble := true }, s)

/-- The default positive prompt substituted for an empty prompt
(`model_handler.py:141` and `app.py:152`). -/
def defaultPrompt : String := "high quality, detailed, realistic"

/-- The fixed negative prompt of `model_handler.py:144`; no caller can
change it. -/
def negativePrompt : String := "low quality, blurry, distorted, deformed, ugly, bad anatomy"

/-- `generate_image` (`model_handler.py:114-168`): ensures the pipeline
is loaded (lines 131-133), preprocesses the sketch (line 137),
substitutes the default prompt for an empty one (lines 140-141), then
invokes the pipeline once with the fixed negative prompt and a
conditioning scale of 1.0 (lines 151-158) and returns `result.images[0]`
(line 161); an empty output collection raises the Python index error.
The third component of the result lists every pipeline invocation the
call performed. -/
def generate_image (env : Env) (s : ModelState) (sketch : ImageInput)
    (prompt : String) (steps : Nat) (guidance : Rat) :
    Except String PilImage × ModelState × List PipelineCall :=
  let loaded : Option String × ModelState :=
    match s.pipeline with
    | none =>
      let r := load_model env s
      match r.res with
      | Except.error e => (some e, r.state)
      | Except.ok _ => (none, r.state)
    | some _ => (none, s)
  match loaded with
  | (some e, s1) => (Except.error e, s1, [])
  | (none, s1) =>
    match preprocess_sketch env s1 sketch with
    | (Except.error e, s2) => (Except.error e, s2, [])
    | (Except.ok ctrl, s2) =>
      let prompt2 := if prompt = "" then defaultPrompt else prompt
      let call : PipelineCall :=
        { prompt := prompt2
          negative_prompt := negativePrompt
          image := ctrl
          num_inference_steps := steps
          guidance_scale := guidance
          controlnet_conditioning_scale := 1 }
      match env.run call with
      | Except.error e => (Except.error e, s2, [call])
      | Except.ok imgs =>
        match imgs.head? with
        | none => (Except.error "list index out of range", s2, [call])
        | some i => (Except.ok i, s2, [call])

/-- An uploaded multipart file as `app.py` observes it: the declared
content type may be absent (FastAPI then gives `None`), and `decoded`
is the outcome of `Image.open` on the uploaded bytes
(`upload_to_pil`, `app.py:57-69`). -/
structure UploadFile where
  filename : String
  content_type : Option String
  decoded : Except String PilImage

/-- An `HTTPException`: status code and detail message. -/
structure HttpError where
  status : Nat
  detail : String
deriving DecidableEq, Repr

/-- The success JSON of `/generate` (`app.py:161-168`), without the
wall-clock `generation_time` field, which is real time and outside the
embedding. -/
structure GenResponse where
  success : Bool
  image : String
  prompt : String
  image_size : Nat × Nat
  message : String
deriving DecidableEq, Repr

/-- An exception inside the endpoint body before the handlers at
`app.py:171-183` translate it: either an `HTTPException` or a generic
Python exception carrying its message. -/
inductive PyErr where
  | http (status : Nat) (detail : String)
  | exc (msg : String)
deriving DecidableEq, Repr

/-- The literal `7.5` passed as `guidance_scale` at `app.py:154`,
written as the reduced rational 15/2 (`guidance75_eq` below checks the
value). -/
def guidance75 : Rat := { num := 15, den := 2, den_nz := by decide, reduced := by decide }

/-- `guidance75` is the rational number 15/2, that is 7.5. -/
theorem guidance75_eq : guidance75 = (15 : Rat) / 2 := by
  rw [guidance75, Rat.mk'_eq_divInt, Rat.divInt_eq_div]
  norm_num

/-- Python's `str.startswith`, used at `app.py:132`: a prefix test on
the character sequence. -/
def pyStartswith (s pre : String) : Bool :=
  pre.data.isPrefixOf s.data

/-- The message of the `AttributeError` raised by
`None.startswith(...)` when no content type was declared
(`app.py:132`); modelled up to exact wording, which the endpoint only
ever embeds into the 500 detail. -/
def noneStartswithMsg : String := "NoneType object has no attribute startswith"

/-- The `try` body of `generate_endpoint` (`app.py:128-168`): validate
the content type — raising `AttributeError` when it is `None` and a 400
`HTTPException` when it does not start with "image/" —, decode the
upload, call `generate_image` with the default-substituted prompt, the
step count 20 and guidance 7.5, and build the success JSON, whose
`prompt` field is the raw form field (`app.py:165`). -/
def generate_body (env : Env) (s : ModelState) (file : UploadFile) (prompt : String) :
    Except PyErr GenResponse × ModelState × List PipelineCall :=
  match file.content_type with
  | none => (Except.error (PyErr.exc noneStartswithMsg), s, [])
  | some ct =>
    if pyStartswith ct "image/" then
      match file.decoded with
      | Except.error e => (Except.error (PyErr.exc e), s, [])
      | Except.ok sketch =>
        match generate_image env s (ImageInput.img sketch)
            (if prompt = "" then defaultPrompt else prompt) 20 guidance75 with
        | (Except.error e, s1, log) => (Except.error (PyErr.exc e), s1, log)
        | (Except.ok img, s1, log) =>
          (Except.ok { success := true
                       image := env.encode img
                       prompt := prompt
                       image_size := (img.width, img.height)
                       message := "Image generated successfully" }, s1, log)
    else
      (Except.error (PyErr.http 400
        ("Invalid file type: " ++ ct ++ ". Please upload an image.")), s, [])

/-- `generate_endpoint` (`app.py:116-183`): the `try` body plus the two
exception handlers — an `HTTPException` is re-raised as is
(`app.py:171-173`), anything else becomes a 500 whose detail embeds the
message (`app.py:177-183`). -/
def generate_endpoint (env : Env) (s : ModelState) (file : UploadFile) (prompt : String) :
    Except HttpError GenResponse × ModelState × List PipelineCall :=
  match generate_body env s file prompt with
  | (Except.ok resp, s1, log) => (Except.ok resp, s1, log)
  | (Except.error (PyErr.http c d), s1, log) =>
    (Except.error { status := c, detail := d }, s1, log)
  | (Except.error (PyErr.exc m), s1, log) =>
    (Except.error { status := 500, detail := "Generation failed: " ++ m }, s1, log)

/-- `model_status` (`app.py:186-197`): reads the module-level
`pipeline` global and reports whether it is loaded; the state is
returned untouched since the handler only reads. -/
def model_status (s : ModelState) : (Bool × String) × ModelState :=
  ((s.pipeline.isSome, if s.pipeline.isSome then "ready" else "not_loaded"), s)

/-! Concrete scenario fixtures used by counterexamples and witnesses. -/

/-- An environment in which every collaborator call succeeds: handle
identities 1-4, a pipeline producing one 640x480 image. -/
def envOK : Env :=
  { controlnet := Except.ok 1
    sdPipe := Except.ok 2
    moved := Except.ok 3
    hed := Except.ok 4
    run := fun _ => Except.ok [{ width := 640, height := 480, mode := "RGB", resampledWith := none }]
    openFile := fun _ => Except.error "no such file"
    encode := fun _ => "iVBORw0KGgo=" }

/-- Like `envOK` except that the HED preprocessor construction at
`model_handler.py:68` raises. -/
def envHedFails : Env :=
  { envOK with hed := Except.error "hed download failed" }

/-- Like `envOK` but the constructions yield the distinct handle
identities 21-24, to tell a second load apart from a first. -/
def envOK2 : Env :=
  { envOK with controlnet := Except.ok 21, sdPipe := Except.ok 22
               moved := Except.ok 23, hed := Except.ok 24 }

/-- A 64x64 RGBA sketch that decodes fine. -/
def sketch64 : PilImage := { width := 64, height := 64, mode := "RGBA", resampledWith := none }

/-- A valid PNG upload carrying `sketch64`. -/
def filePng : UploadFile :=
  { filename := "sketch.png", content_type := some "image/png", decoded := Except.ok sketch64 }

/-- An upload whose declared content type is `text/plain`. -/
def fileText : UploadFile :=
  { filename := "notes.txt", content_type := some "text/plain", decoded := Except.ok sketch64 }

/-- An upload with no declared content type at all. -/
def fileNoCT : UploadFile :=
  { filename := "mystery", content_type := none, decoded := Except.ok sketch64 }

/-!
Helper lemmas shared by several claims below.
-/

theorem preprocess_ok_shape (env : Env) (s : ModelState) (input : ImageInput)
    (ctrl : ControlImage) (s1 : ModelState)
    (h : preprocess_sketch env s input = (Except.ok ctrl, s1)) :
    ctrl.scribble = true ∧ ctrl.src.width = 512 ∧ ctrl.src.height = 512 ∧
    ctrl.src.mode = "RGB" ∧ ctrl.src.resampledWith = some Resampling.lanczos ∧
    s1.pipeline = s.pipeline ∧
    (∀ i, input = ImageInput.img i →
      ctrl.src = i.convertRGB.resizeWith 512 512 Resampling.lanczos) := by
  unfold preprocess_sketch at h
  repeat' split at h
  all_goals simp_all [PilImage.convertRGB, PilImage.resizeWith]
  all_goals obtain ⟨h1, h2⟩ := h
  all_goals subst h1 h2
  all_goals simp [PilImage.convertRGB, PilImage.resizeWith]

theorem load_model_ok_pipeline (env : Env) (s : ModelState) (p : Nat)
    (h : (load_model env s).res = Except.ok p) :
    (load_model env s).state.pipeline = some p := by
  rcases hp : s.pipeline with _ | p0 <;>
  rcases hc : env.controlnet with e1 | c <;>
  rcases hs : env.sdPipe with e2 | p1 <;>
  rcases hm : env.moved with e3 | p2 <;>
  rcases hh : env.hed with e4 | h4 <;>
  simp_all [load_model]

theorem generate_image_calls (env : Env) (s : ModelState) (sketch : ImageInput)
    (prompt : String) (steps : Nat) (guidance : Rat) (res : Except String PilImage)
    (s1 : ModelState) (log : List PipelineCall)
    (h : generate_image env s sketch prompt steps guidance = (res, s1, log)) :
    (log = [] ∧ ∀ img, res ≠ Except.ok img) ∨
    (∃ c, log = [c] ∧
      c.prompt = (if prompt = "" then defaultPrompt else prompt) ∧
      c.negative_prompt = negativePrompt ∧
      c.num_inference_steps = steps ∧
      c.guidance_scale = guidance ∧
      c.controlnet_conditioning_scale = 1 ∧
      c.image.scribble = true ∧
      c.image.src.width = 512 ∧ c.image.src.height = 512 ∧
      c.image.src.mode = "RGB" ∧
      c.image.src.resampledWith = some Resampling.lanczos ∧
      (∀ i, sketch = ImageInput.img i →
        c.image.src = i.convertRGB.resizeWith 512 512 Resampling.lanczos) ∧
      (∀ img, res = Except.ok img →
        s1.pipeline.isSome = true ∧
        ∃ imgs, env.run c = Except.ok imgs ∧ imgs.head? = some img)) := by
  have tail : ∀ (sL : ModelState), sL.pipeline.isSome = true →
      (match preprocess_sketch env sL sketch with
        | (Except.error e, s2) => (Except.error e, s2, [])
        | (Except.ok ctrl, s2) =>
          let prompt2 := if prompt = "" then defaultPrompt else prompt
          let call : PipelineCall :=
            { prompt := prompt2
              negative_prompt := negativePrompt
              image := ctrl
              num_inference_steps := steps
              guidance_scale := guidance
              controlnet_conditioning_scale := 1 }
          match env.run call with
          | Except.error e => (Except.error e, s2, [call])
          | Except.ok imgs =>
            match imgs.head? with
            | none => (Except.error "list index out of range", s2, [call])
            | some i => (Except.ok i, s2, [call])) = (res, s1, log) →
      (log = [] ∧ ∀ img, res ≠ Except.ok img) ∨
      (∃ c, log = [c] ∧
        c.prompt = (if prompt = "" then defaultPrompt else prompt) ∧
        c.negative_prompt = negativePrompt ∧
        c.num_inference_steps = steps ∧
        c.guidance_scale = guidance ∧
        c.controlnet_conditioning_scale = 1 ∧
        c.image.scribble = true ∧
        c.image.src.width = 512 ∧ c.image.src.height = 512 ∧
        c.image.src.mode = "RGB" ∧
        c.image.src.resampledWith = some Resampling.lanczos ∧
        (∀ i, sketch = ImageInput.img i →
          c.image.src = i.convertRGB.resizeWith 512 512 Resampling.lanczos) ∧
        (∀ img, res = Except.ok img →
          s1.pipeline.isSome = true ∧
          ∃ imgs, env.run c = Except.ok imgs ∧ imgs.head? = some img)) := by
    intro sL hsL ht
    rcases hpre : preprocess_sketch env sL sketch with ⟨pr, s2⟩
    rcases pr with e | ctrl
    · rw [hpre] at ht
      simp only [Prod.mk.injEq] at ht
      obtain ⟨h1, h2, h3⟩ := ht
      subst h1; subst h2; subst h3
      left
      simp
    · rw [hpre] at ht
      obtain ⟨hscr, hw, hh2, hm2, hrw, hpl, himg⟩ :=
        preprocess_ok_shape env sL sketch ctrl s2 hpre
      simp only at ht
      rcases hrun : env.run { prompt := if prompt = "" then defaultPrompt else prompt
                              negative_prompt := negativePrompt
                              image := ctrl
                              num_inference_steps := steps
                              guidance_scale := guidance
                              controlnet_conditioning_scale := 1 } with e | imgs
      · rw [hrun] at ht
        simp only [Prod.mk.injEq] at ht
        obtain ⟨h1, h2, h3⟩ := ht
        subst h1; subst h2; subst h3
        right
        refine ⟨_, rfl, rfl, rfl, rfl, rfl, rfl, hscr, hw, hh2, hm2, hrw, himg, ?_⟩
        intro img hbad
        exact absurd hbad (by simp)
      · rw [hrun] at ht
        simp only at ht
        rcases hhead : imgs.head? with _ | i
        · rw [hhead] at ht
          simp only [Prod.mk.injEq] at ht
          obtain ⟨h1, h2, h3⟩ := ht
          subst h1; subst h2; subst h3
          right
          refine ⟨_, rfl, rfl, rfl, rfl, rfl, rfl, hscr, hw, hh2, hm2, hrw, himg, ?_⟩
          intro img hbad
          exact absurd hbad (by simp)
        · rw [hhead] at ht
          simp only [Prod.mk.injEq] at ht
          obtain ⟨h1, h2, h3⟩ := ht
          subst h1; subst h2; subst h3
          right
          refine ⟨_, rfl, rfl, rfl, rfl, rfl, rfl, hscr, hw, hh2, hm2, hrw, himg, ?_⟩
          intro img hok
          rw [Except.ok.injEq] at hok
          subst hok
          refine ⟨by rw [hpl]; exact hsL, imgs, hrun, hhead⟩
  unfold generate_image at h
  rcases hp : s.pipeline with _ | p
  · rw [hp] at h
    simp only at h
    rcases hl : (load_model env s).res with e | p2
    · rw [hl] at h
      simp only [Prod.mk.injEq] at h
      obtain ⟨h1, h2, h3⟩ := h
      subst h1; subst h2; subst h3
      left
      simp
    · rw [hl] at h
      simp only at h
      exact tail (load_model env s).state
        (by rw [load_model_ok_pipeline env s p2 hl]; rfl) h
  · rw [hp] at h
    simp only at h
    exact tail s (by rw [hp]; rfl) h

theorem generate_endpoint_ok (env : Env) (s : ModelState) (file : UploadFile)
    (prompt : String) (resp : GenResponse) (s1 : ModelState) (log : List PipelineCall)
    (h : generate_endpoint env s file prompt = (Except.ok resp, s1, log)) :
    resp.prompt = prompt ∧ resp.success = true ∧ s1.pipeline.isSome = true ∧
    ∃ c, log = [c] ∧
      c.prompt = (if prompt = "" then defaultPrompt else prompt) ∧
      c.negative_prompt = negativePrompt ∧
      c.num_inference_steps = 20 ∧
      c.guidance_scale = guidance75 ∧
      c.controlnet_conditioning_scale = 1 := by
  unfold generate_endpoint at h
  rcases hb : generate_body env s file prompt with ⟨br, bs, blog⟩
  rw [hb] at h
  rcases br with e | resp0
  · rcases e with ⟨c0, d0⟩ | m <;> simp at h
  · simp only [Prod.mk.injEq, Except.ok.injEq] at h
    obtain ⟨h1, h2, h3⟩ := h
    subst h1; subst h2; subst h3
    unfold generate_body at hb
    rcases hct : file.content_type with _ | ct
    · rw [hct] at hb; simp at hb
    · rw [hct] at hb
      simp only at hb
      by_cases hst : pyStartswith ct "image/" = true
      · rw [if_pos hst] at hb
        rcases hdec : file.decoded with e | sketch
        · rw [hdec] at hb; simp at hb
        · rw [hdec] at hb
          simp only at hb
          rcases hgen : generate_image env s (ImageInput.img sketch)
              (if prompt = "" then defaultPrompt else prompt) 20 guidance75
            with ⟨gres, gs, glog⟩
          rw [hgen] at hb
          rcases gres with e | img
          · simp at hb
          · simp only [Prod.mk.injEq, Except.ok.injEq] at hb
            obtain ⟨hb1, hb2, hb3⟩ := hb
            subst hb2; subst hb3
            rcases generate_image_calls env s (ImageInput.img sketch)
                (if prompt = "" then defaultPrompt else prompt) 20 guidance75
                (Except.ok img) gs glog hgen with hleft | ⟨c, hc, hcp, hcn, hcsteps, hcg, hccs, _⟩
            · exact absurd rfl (hleft.2 img)
            · refine ⟨by rw [← hb1], by rw [← hb1], ?_, c, hc, ?_, hcn, hcsteps, hcg, hccs⟩
              · rcases generate_image_calls env s (ImageInput.img sketch)
                    (if prompt = "" then defaultPrompt else prompt) 20 guidance75
                    (Except.ok img) gs glog hgen with hL | ⟨c2, _, _, _, _, _, _, _, _, _, _, _, _, hok⟩
                · exact absurd rfl (hL.2 img)
                · exact (hok img rfl).1
              · rw [hcp]
                by_cases hp : prompt = ""
                · simp [hp]
                · simp [hp]
      · rw [if_neg hst] at hb
        simp at hb

/-- The success response of the all-success scenario `envOK` /
`filePng` with an empty prompt, as the endpoint computes it. -/
def respEmptyPrompt : GenResponse :=
  { success := true, image := "iVBORw0KGgo=", prompt := ""
    image_size := (640, 480), message := "Image generated successfully" }

/-- The single pipeline invocation of that scenario. -/
def callDefaultPrompt : PipelineCall :=
  { prompt := defaultPrompt
    negative_prompt := negativePrompt
    image := { detector := 4
               src := { width := 512, height := 512, mode := "RGB"
                        resampledWith := some Resampling.lanczos }
               scribble := true }
    num_inference_steps := 20
    guidance_scale := guidance75
    controlnet_conditioning_scale := 1 }

/-- The globals after that scenario: pipeline handle 3 (the device-moved
pipeline), preprocessor handle 4. -/
def loadedState : ModelState := { pipeline := some 3, preprocessor := some 4 }

/-- C1, counterexample: for the valid PNG upload `filePng` with an empty
prompt the request succeeds, but the `prompt` field recorded in the
success JSON response is the empty string, not the fixed default
description string — `app.py:165` records the raw form field, while the
default is only substituted into the `generate_image` argument. -/
theorem C1_counterexample :
    (generate_endpoint envOK initialState filePng "").1 = Except.ok respEmptyPrompt ∧
    respEmptyPrompt.prompt = "" ∧
    ("" : String) ≠ defaultPrompt := by
  refine ⟨by rfl, by rfl, by decide⟩

/-- C1, amended: for every generation request with a valid image and an
empty prompt form field that returns a success response, the pipeline is
invoked with the default description string as its positive prompt, but
the `prompt` field recorded in the success JSON response is the empty
caller-supplied string, not the default. -/
theorem C1_amended (env : Env) (s : ModelState) (file : UploadFile)
    (resp : GenResponse) (s1 : ModelState) (log : List PipelineCall)
    (h : generate_endpoint env s file "" = (Except.ok resp, s1, log)) :
    resp.prompt = "" ∧ ∃ c, log = [c] ∧ c.prompt = defaultPrompt := by
  obtain ⟨h1, _, _, c, hc, hcp, _⟩ := generate_endpoint_ok env s file "" resp s1 log h
  exact ⟨h1, c, hc, by simpa using hcp⟩

/-- C1, witness: `C1_amended` applied to the all-success scenario. -/
theorem C1_amended_witness :
    generate_endpoint envOK initialState filePng "" =
      (Except.ok respEmptyPrompt, loadedState, [callDefaultPrompt]) ∧
    (respEmptyPrompt.prompt = "" ∧
     ∃ c, [callDefaultPrompt] = [c] ∧ c.prompt = defaultPrompt) :=
  ⟨by rfl, C1_amended envOK initialState filePng _ _ _ (by rfl)⟩

/-- C2, counterexample: when the HED preprocessor construction at
`model_handler.py:68` raises, the exception propagates, but the
process-wide pipeline cache is NOT empty afterwards — the partially
initialized pipeline (handle 3) was committed at `model_handler.py:56`
and `64` — and a later call returns that handle without retrying
(handle 3, not the fresh 23 the retry environment would construct). -/
theorem C2_counterexample :
    (load_model envHedFails initialState).res = Except.error "hed download failed" ∧
    (load_model envHedFails initialState).state.pipeline = some 3 ∧
    (load_model envHedFails initialState).state ≠ initialState ∧
    load_model envOK2 (load_model envHedFails initialState).state =
      { res := Except.ok 3, state := (load_model envHedFails initialState).state
        constructions := 0 } := by
  refine ⟨by rfl, by rfl, by decide, by rfl⟩

/-- C2, amended: a failure during `load_model` is always propagated.
The cache stays empty — so a later call retries from scratch — exactly
when the failure occurs in the ControlNet or pipeline construction
(before the global assignment at `model_handler.py:56`); a failure in
the device move or the preprocessor construction leaves the
already-assigned, partially initialized pipeline handle in the cache,
and every subsequent call returns that handle without re-constructing. -/
theorem C2_amended (env : Env) (s : ModelState) (h : s.pipeline = none) :
    (∀ e, env.controlnet = Except.error e →
      load_model env s = { res := Except.error e, state := s, constructions := 1 }) ∧
    (∀ c e, env.controlnet = Except.ok c → env.sdPipe = Except.error e →
      load_model env s = { res := Except.error e, state := s, constructions := 2 }) ∧
    (∀ c p1 e, env.controlnet = Except.ok c → env.sdPipe = Except.ok p1 →
      env.moved = Except.error e →
      (load_model env s).res = Except.error e ∧
      (load_model env s).state.pipeline = some p1) ∧
    (∀ c p1 p2 e, env.controlnet = Except.ok c → env.sdPipe = Except.ok p1 →
      env.moved = Except.ok p2 → env.hed = Except.error e →
      (load_model env s).res = Except.error e ∧
      (load_model env s).state.pipeline = some p2) ∧
    (∀ p, (load_model env s).state.pipeline = some p →
      ∀ env2, load_model env2 (load_model env s).state =
        { res := Except.ok p, state := (load_model env s).state, constructions := 0 }) := by
  refine ⟨?_, ?_, ?_, ?_, ?_⟩
  · intro e hc
    unfold load_model
    rw [h, hc]
  · intro c e hc hs
    unfold load_model
    rw [h, hc, hs]
  · intro c p1 e hc hs hm
    unfold load_model
    rw [h, hc, hs, hm]
    exact ⟨rfl, rfl⟩
  · intro c p1 p2 e hc hs hm hh
    unfold load_model
    rw [h, hc, hs, hm, hh]
    exact ⟨rfl, rfl⟩
  · intro p hp env2
    conv_lhs => rw [load_model]
    rw [hp]

/-- C2, witness: `C2_amended` applied to the empty initial state. -/
theorem C2_amended_witness :
    initialState.pipeline = none ∧
    ((∀ e, envHedFails.controlnet = Except.error e →
      load_model envHedFails initialState =
        { res := Except.error e, state := initialState, constructions := 1 }) ∧
    (∀ c e, envHedFails.controlnet = Except.ok c → envHedFails.sdPipe = Except.error e →
      load_model envHedFails initialState =
        { res := Except.error e, state := initialState, constructions := 2 }) ∧
    (∀ c p1 e, envHedFails.controlnet = Except.ok c → envHedFails.sdPipe = Except.ok p1 →
      envHedFails.moved = Except.error e →
      (load_model envHedFails initialState).res = Except.error e ∧
      (load_model envHedFails initialState).state.pipeline = some p1) ∧
    (∀ c p1 p2 e, envHedFails.controlnet = Except.ok c → envHedFails.sdPipe = Except.ok p1 →
      envHedFails.moved = Except.ok p2 → envHedFails.hed = Except.error e →
      (load_model envHedFails initialState).res = Except.error e ∧
      (load_model envHedFails initialState).state.pipeline = some p2) ∧
    (∀ p, (load_model envHedFails initialState).state.pipeline = some p →
      ∀ env2, load_model env2 (load_model envHedFails initialState).state =
        { res := Except.ok p, state := (load_model envHedFails initialState).state
          constructions := 0 })) :=
  ⟨rfl, C2_amended envHedFails initialState rfl⟩

/-- C3: with the cache empty and every construction step succeeding,
the first `load_model` call returns the freshly moved pipeline handle,
and every subsequent call — under any environment, in particular one
that would construct different handles — returns that same handle with
the state unchanged and zero constructions attempted. -/
theorem C3_theorem (env : Env) (s : ModelState) (c p1 p2 hd : Nat)
    (h : s.pipeline = none)
    (hc : env.controlnet = Except.ok c) (hs : env.sdPipe = Except.ok p1)
    (hm : env.moved = Except.ok p2) (hh : env.hed = Except.ok hd) :
    (load_model env s).res = Except.ok p2 ∧
    (load_model env s).constructions = 3 ∧
    ∀ env2, load_model env2 (load_model env s).state =
      { res := Except.ok p2, state := (load_model env s).state, constructions := 0 } := by
  have hload : load_model env s =
      { res := Except.ok p2
        state := { pipeline := some p2, preprocessor := some hd }
        constructions := 3 } := by
    unfold load_model
    rw [h, hc, hs, hm, hh]
  refine ⟨by rw [hload], by rw [hload], ?_⟩
  intro env2
  rw [hload]
  conv_lhs => rw [load_model]

/-- C3, witness: `C3_theorem` applied to the all-success environment;
the second call runs under `envOK2`, whose constructions would yield
different handles, and still returns handle 3. -/
theorem C3_theorem_witness :
    initialState.pipeline = none ∧
    (load_model envOK initialState).res = Except.ok 3 ∧
    (load_model envOK initialState).constructions = 3 ∧
    ∀ env2, load_model env2 (load_model envOK initialState).state =
      { res := Except.ok 3, state := (load_model envOK initialState).state
        constructions := 0 } :=
  ⟨rfl, C3_theorem envOK initialState 1 2 3 4 rfl rfl rfl rfl rfl⟩

/-- C4, counterexample: call `preprocess_sketch` first (the
preprocessor global becomes handle 4), then `load_model` under an
environment whose constructions yield fresh handles: the first
successful load unconditionally re-runs `HEDdetector.from_pretrained`
at `model_handler.py:68`, replacing the non-null preprocessor handle 4
with 24. -/
theorem C4_counterexample :
    (preprocess_sketch envOK initialState (ImageInput.img sketch64)).2.preprocessor = some 4 ∧
    (load_model envOK2
        (preprocess_sketch envOK initialState (ImageInput.img sketch64)).2).state.preprocessor
      = some 24 ∧
    some (24 : Nat) ≠ some 4 := by
  refine ⟨by rfl, by rfl, by decide⟩

/-- C4, amended: `preprocess_sketch` itself never replaces a non-null
preprocessor handle, and `load_model` touches nothing once the pipeline
handle is non-null; but a first successful `load_model` (pipeline still
null) always constructs and stores a fresh preprocessor handle,
replacing whatever handle an earlier `preprocess_sketch` had stored. -/
theorem C4_amended (env : Env) (s : ModelState) (input : ImageInput) (hpp : Nat)
    (h : s.preprocessor = some hpp) :
    (preprocess_sketch env s input).2.preprocessor = some hpp ∧
    (∀ p, s.pipeline = some p → (load_model env s).state = s) ∧
    (∀ c p1 p2 hd, s.pipeline = none → env.controlnet = Except.ok c →
      env.sdPipe = Except.ok p1 → env.moved = Except.ok p2 → env.hed = Except.ok hd →
      (load_model env s).state.preprocessor = some hd) := by
  refine ⟨?_, ?_, ?_⟩
  · unfold preprocess_sketch
    rw [h]
    rcases input with p | i
    · rcases ho : env.openFile p with e | i <;> simp [ho, h]
    · simp [h]
  · intro p hp
    unfold load_model
    rw [hp]
  · intro c p1 p2 hd hp hc hs hm hh
    unfold load_model
    rw [hp, hc, hs, hm, hh]

/-- C4, witness: `C4_amended` applied to the state left behind by a
first `preprocess_sketch` call, whose preprocessor handle is 4. -/
theorem C4_amended_witness :
    ({ pipeline := none, preprocessor := some 4 } : ModelState).preprocessor = some 4 ∧
    ((preprocess_sketch envOK2 { pipeline := none, preprocessor := some 4 }
        (ImageInput.img sketch64)).2.preprocessor = some 4 ∧
    (∀ p, ({ pipeline := none, preprocessor := some 4 } : ModelState).pipeline = some p →
      (load_model envOK2 { pipeline := none, preprocessor := some 4 }).state =
        { pipeline := none, preprocessor := some 4 }) ∧
    (∀ c p1 p2 hd, ({ pipeline := none, preprocessor := some 4 } : ModelState).pipeline = none →
      envOK2.controlnet = Except.ok c →
      envOK2.sdPipe = Except.ok p1 → envOK2.moved = Except.ok p2 →
      envOK2.hed = Except.ok hd →
      (load_model envOK2 { pipeline := none, preprocessor := some 4 }).state.preprocessor
        = some hd)) :=
  ⟨rfl, C4_amended envOK2 { pipeline := none, preprocessor := some 4 }
    (ImageInput.img sketch64) 4 rfl⟩

/-- A large 1024x768 grayscale input, exercising the size/mode
normalization. -/
def sketch1024 : PilImage := { width := 1024, height := 768, mode := "L", resampledWith := none }

/-- The image `envOK`'s pipeline produces. -/
def outImage : PilImage := { width := 640, height := 480, mode := "RGB", resampledWith := none }

/-- The pipeline invocation of the `envOK` / `filePng` scenario with
prompt "cat". -/
def callCat : PipelineCall :=
  { prompt := "cat"
    negative_prompt := negativePrompt
    image := { detector := 4
               src := { width := 512, height := 512, mode := "RGB"
                        resampledWith := some Resampling.lanczos }
               scribble := true }
    num_inference_steps := 20
    guidance_scale := guidance75
    controlnet_conditioning_scale := 1 }

/-- The success response of that scenario. -/
def respCat : GenResponse :=
  { success := true, image := "iVBORw0KGgo=", prompt := "cat"
    image_size := (640, 480), message := "Image generated successfully" }

/-- C5: a declared content type that does not start with "image/" is
rejected with the 400 client error of `app.py:133-137`; the endpoint
returns with the model cache untouched and no pipeline invocation
performed. -/
theorem C5_theorem (env : Env) (s : ModelState) (file : UploadFile) (prompt : String)
    (ct : String) (hct : file.content_type = some ct)
    (hst : pyStartswith ct "image/" = false) :
    generate_endpoint env s file prompt =
      (Except.error { status := 400
                      detail := "Invalid file type: " ++ ct ++ ". Please upload an image." },
       s, []) := by
  unfold generate_endpoint generate_body
  rw [hct]
  simp [hst]

/-- C5, witness: `C5_theorem` applied to the `text/plain` upload. -/
theorem C5_theorem_witness :
    fileText.content_type = some "text/plain" ∧
    pyStartswith "text/plain" "image/" = false ∧
    generate_endpoint envOK initialState fileText "hi" =
      (Except.error { status := 400
                      detail := "Invalid file type: " ++ "text/plain" ++ ". Please upload an image." },
       initialState, []) :=
  ⟨rfl, by decide, C5_theorem envOK initialState fileText "hi" "text/plain" rfl (by decide)⟩

/-- C6: whenever `preprocess_sketch` returns a conditioning image, that
image was produced by the detector in scribble mode from the input
converted to three-channel RGB and resampled to exactly 512x512 with
the LANCZOS filter — for inputs of any dimensions and colour mode. -/
theorem C6_theorem (env : Env) (s : ModelState) (i : PilImage)
    (ctrl : ControlImage) (s1 : ModelState)
    (h : preprocess_sketch env s (ImageInput.img i) = (Except.ok ctrl, s1)) :
    ctrl.src = i.convertRGB.resizeWith 512 512 Resampling.lanczos ∧
    ctrl.src.width = 512 ∧ ctrl.src.height = 512 ∧ ctrl.src.mode = "RGB" ∧
    ctrl.src.resampledWith = some Resampling.lanczos ∧ ctrl.scribble = true := by
  obtain ⟨hscr, hw, hh, hm, hr, _, himg⟩ :=
    preprocess_ok_shape env s (ImageInput.img i) ctrl s1 h
  exact ⟨himg i rfl, hw, hh, hm, hr, hscr⟩

/-- C6, witness: `C6_theorem` applied to the 1024x768 grayscale input;
a 64x64 RGBA input is covered by the other concrete scenarios. -/
theorem C6_theorem_witness :
    preprocess_sketch envOK initialState (ImageInput.img sketch1024) =
      (Except.ok { detector := 4
                   src := { width := 512, height := 512, mode := "RGB"
                            resampledWith := some Resampling.lanczos }
                   scribble := true },
       { pipeline := none, preprocessor := some 4 }) ∧
    (({ detector := 4
        src := { width := 512, height := 512, mode := "RGB"
                 resampledWith := some Resampling.lanczos }
        scribble := true } : ControlImage).src =
        sketch1024.convertRGB.resizeWith 512 512 Resampling.lanczos ∧
      ({ width := 512, height := 512, mode := "RGB"
         resampledWith := some Resampling.lanczos } : PilImage).width = 512 ∧
      ({ width := 512, height := 512, mode := "RGB"
         resampledWith := some Resampling.lanczos } : PilImage).height = 512 ∧
      ({ width := 512, height := 512, mode := "RGB"
         resampledWith := some Resampling.lanczos } : PilImage).mode = "RGB" ∧
      ({ width := 512, height := 512, mode := "RGB"
         resampledWith := some Resampling.lanczos } : PilImage).resampledWith =
        some Resampling.lanczos ∧
      ({ detector := 4
         src := { width := 512, height := 512, mode := "RGB"
                  resampledWith := some Resampling.lanczos }
         scribble := true } : ControlImage).scribble = true) :=
  ⟨by rfl, C6_theorem envOK initialState sketch1024 _ _ (by rfl)⟩

/-- C7: any pipeline invocation performed by `generate_image` is the
only one of that call, and it carries the fixed negative prompt, the
given step count and guidance scale, the conditioning strength 1.0, and
the 512x512 scribble conditioning image derived from the sketch; on
success the function returns the first image of the pipeline's output
collection. -/
theorem C7_theorem (env : Env) (s : ModelState) (sketch : ImageInput) (prompt : String)
    (steps : Nat) (guidance : Rat) (res : Except String PilImage) (s1 : ModelState)
    (log : List PipelineCall) (c : PipelineCall)
    (h : generate_image env s sketch prompt steps guidance = (res, s1, log))
    (hc : c ∈ log) :
    log = [c] ∧
    c.negative_prompt = negativePrompt ∧
    c.num_inference_steps = steps ∧
    c.guidance_scale = guidance ∧
    c.controlnet_conditioning_scale = 1 ∧
    c.image.scribble = true ∧
    c.image.src.width = 512 ∧ c.image.src.height = 512 ∧
    (∀ i, sketch = ImageInput.img i →
      c.image.src = i.convertRGB.resizeWith 512 512 Resampling.lanczos) ∧
    (∀ img, res = Except.ok img →
      ∃ imgs, env.run c = Except.ok imgs ∧ imgs.head? = some img) := by
  rcases generate_image_calls env s sketch prompt steps guidance res s1 log h with
    ⟨hnil, _⟩ | ⟨c2, hc2, _, hcn, hcsteps, hcg, hccs, hscr, hw, hh2, _, _, himg, hok⟩
  · rw [hnil] at hc
    cases hc
  · have hcc : c = c2 := by
      rw [hc2] at hc
      simpa using hc
    subst hcc
    exact ⟨hc2, hcn, hcsteps, hcg, hccs, hscr, hw, hh2, himg,
      fun img hr => (hok img hr).2⟩

/-- C7, witness: `C7_theorem` applied to the `envOK` scenario with
prompt "cat". -/
theorem C7_theorem_witness :
    generate_image envOK initialState (ImageInput.img sketch64) "cat" 20 guidance75 =
      (Except.ok outImage, loadedState, [callCat]) ∧
    callCat ∈ [callCat] ∧
    ([callCat] = [callCat] ∧
     callCat.negative_prompt = negativePrompt ∧
     callCat.num_inference_steps = 20 ∧
     callCat.guidance_scale = guidance75 ∧
     callCat.controlnet_conditioning_scale = 1 ∧
     callCat.image.scribble = true ∧
     callCat.image.src.width = 512 ∧ callCat.image.src.height = 512 ∧
     (∀ i, ImageInput.img sketch64 = ImageInput.img i →
       callCat.image.src = i.convertRGB.resizeWith 512 512 Resampling.lanczos) ∧
     (∀ img, (Except.ok outImage : Except String PilImage) = Except.ok img →
       ∃ imgs, envOK.run callCat = Except.ok imgs ∧ imgs.head? = some img)) :=
  ⟨by rfl, by simp,
   C7_theorem envOK initialState (ImageInput.img sketch64) "cat" 20 guidance75
     (Except.ok outImage) loadedState [callCat] callCat (by rfl) (by simp)⟩

/-- C8: for every success response to a request with a non-empty
prompt, both the recorded `prompt` field and the positive prompt of the
single pipeline invocation are exactly the caller-supplied text. -/
theorem C8_theorem (env : Env) (s : ModelState) (file : UploadFile) (prompt : String)
    (resp : GenResponse) (s1 : ModelState) (log : List PipelineCall)
    (hne : prompt ≠ "")
    (h : generate_endpoint env s file prompt = (Except.ok resp, s1, log)) :
    resp.prompt = prompt ∧ ∃ c, log = [c] ∧ c.prompt = prompt := by
  obtain ⟨h1, _, _, c, hc, hcp, _⟩ := generate_endpoint_ok env s file prompt resp s1 log h
  refine ⟨h1, c, hc, ?_⟩
  rw [hcp, if_neg hne]

/-- C8, witness: `C8_theorem` applied to the `envOK` scenario with
prompt "cat". -/
theorem C8_theorem_witness :
    ("cat" : String) ≠ "" ∧
    generate_endpoint envOK initialState filePng "cat" =
      (Except.ok respCat, loadedState, [callCat]) ∧
    (respCat.prompt = "cat" ∧ ∃ c, [callCat] = [c] ∧ c.prompt = "cat") :=
  ⟨by decide, by rfl,
   C8_theorem envOK initialState filePng "cat" respCat loadedState [callCat]
     (by decide) (by rfl)⟩

/-- C9: the model-status query reports loaded/"ready" exactly when the
pipeline global is non-null and "not_loaded" exactly when it is null,
never mutating the state; before any request it reports not loaded, and
after any successful generation request it reports ready. -/
theorem C9_theorem :
    (∀ s : ModelState,
      ((model_status s).1.1 = true ↔ s.pipeline ≠ none) ∧
      ((model_status s).1.2 = "ready" ↔ s.pipeline ≠ none) ∧
      ((model_status s).1.2 = "not_loaded" ↔ s.pipeline = none) ∧
      (model_status s).2 = s) ∧
    (model_status initialState).1 = (false, "not_loaded") ∧
    (∀ env file prompt resp s1 log,
      generate_endpoint env initialState file prompt = (Except.ok resp, s1, log) →
      (model_status s1).1 = (true, "ready")) := by
  refine ⟨?_, rfl, ?_⟩
  · intro s
    rcases hp : s.pipeline with _ | p <;> simp [model_status, hp]
  · intro env file prompt resp s1 log h
    obtain ⟨_, _, hps, _⟩ := generate_endpoint_ok env initialState file prompt resp s1 log h
    simp [model_status, hps]

/-- C9, witness: after the successful `envOK` generation request the
status query reports ready. -/
theorem C9_theorem_witness :
    generate_endpoint envOK initialState filePng "cat" =
      (Except.ok respCat, loadedState, [callCat]) ∧
    (model_status loadedState).1 = (true, "ready") :=
  ⟨by rfl, C9_theorem.2.2 envOK filePng "cat" respCat loadedState [callCat] (by rfl)⟩

/-- C10: a request with no declared content type at all makes the
validation expression itself raise (`None.startswith`), which the
generic handler surfaces as the 500 server error, not the 400 client
validation error; the state is unchanged and no pipeline invocation is
performed. -/
theorem C10_theorem (env : Env) (s : ModelState) (file : UploadFile) (prompt : String)
    (h : file.content_type = none) :
    generate_endpoint env s file prompt =
      (Except.error { status := 500
                      detail := "Generation failed: " ++ noneStartswithMsg }, s, []) ∧
    (500 : Nat) ≠ 400 := by
  constructor
  · unfold generate_endpoint generate_body
    rw [h]
  · decide

/-- C10, witness: `C10_theorem` applied to the upload with absent
content type. -/
theorem C10_theorem_witness :
    fileNoCT.content_type = none ∧
    (generate_endpoint envOK initialState fileNoCT "" =
      (Except.error { status := 500
                      detail := "Generation failed: " ++ noneStartswithMsg },
       initialState, []) ∧
    (500 : Nat) ≠ 400) :=
  ⟨rfl, C10_theorem envOK initialState fileNoCT "" rfl⟩

end SketchToImage
